import Mathlib

/-!
A shallow embedding of the directive-driven parser and layout/render pipeline
of pw_pgsql2latex.py (repository Piiit/pwScripts).  Python strings are Lean
strings (manipulated as lists of characters), Python lists are Lean lists,
Python ints are Int/Nat (Python integers are unbounded, so no wrap-around is
modelled), Python floats are modelled as Rat (every float arising here is a
small decimal fraction), and Python exceptions are modelled with Except
PyError.  Input lines are taken without their trailing newline character:
every fragment of a line that escapes into a token is stripped of surrounding
whitespace by the source, so the two presentations are observation
equivalent.  Each definition carries a comment naming the source function and
the lines it embeds.
-/

/-
Batteries marks rational arithmetic irreducible, which only hides it from
tactic-level evaluation (the kernel is not affected); closed coordinate
computations in this development are evaluated with decide, so the
arithmetic is restored to the ordinary reducibility here.
-/
set_option allowUnsafeReducibility true
attribute [semireducible] Rat.add Rat.mul Rat.sub Rat.inv Rat.div

namespace PW

/-- Python exceptions raised by the embedded code.  raise_error (lines
452-457) raises ValueError carrying a message and a hint; list indexing out
of range raises IndexError; and the failure branch of Relation.addTuple
evaluates "Too many tuple columns for the actual schema: " + self.schema, a
str + list concatenation, which raises TypeError in Python before any
ValueError is constructed. -/
inductive PyError
  | valueError (msg : String) (hint : String)
  | typeError
  | indexError
deriving DecidableEq, Repr

/-- Is an Except value a success?  (Used to state totality facts.) -/
def isOkE {ε α : Type} : Except ε α → Bool
  | .ok _ => true
  | .error _ => false

theorem isOkE_exists {ε α : Type} {e : Except ε α} (h : isOkE e = true) : ∃ a, e = .ok a := by
  cases e with
  | ok a => exact ⟨a, rfl⟩
  | error _ => simp [isOkE] at h

/-- The whitespace characters of Python str.strip / str.isspace that can
occur in text input: space, tab, newline, carriage return, vertical tab,
form feed. -/
def isPySpace (c : Char) : Bool :=
  c = ' ' || c = '\t' || c = '\n' || c = '\r' || c = Char.ofNat 11 || c = Char.ofNat 12

/-- Python str.lstrip() on a list of characters. -/
def lstripL (s : List Char) : List Char := s.dropWhile isPySpace

/-- Python str.rstrip() on a list of characters. -/
def rstripL (s : List Char) : List Char := (s.reverse.dropWhile isPySpace).reverse

/-- Python str.strip() on a list of characters. -/
def stripL (s : List Char) : List Char := rstripL (lstripL s)

/-- Python str.lstrip(chars): drop the leading characters belonging to the
given set (the source uses line.lstrip("-- ")). -/
def lstripSetL (cs : List Char) (s : List Char) : List Char := s.dropWhile (cs.contains ·)

/-- Does the character list start with the given pattern? -/
def startsWithL : List Char → List Char → Bool
  | _, [] => true
  | [], _ :: _ => false
  | c :: s, p :: ps => c = p && startsWithL s ps

/-- Helper of splitOnChar, accumulating the current field reversed. -/
def splitOnCharAux (sep : Char) : List Char → List Char → List (List Char)
  | [], acc => [acc.reverse]
  | c :: s, acc =>
      if c = sep then acc.reverse :: splitOnCharAux sep s []
      else splitOnCharAux sep s (c :: acc)

/-- Python str.split(sep) for a one-character separator: splits at every
occurrence and keeps empty fields. -/
def splitOnChar (sep : Char) (s : List Char) : List (List Char) := splitOnCharAux sep s []

/-- The numeric value of a run of decimal digits. -/
def natOfDigits (ds : List Char) : Nat := ds.foldl (fun a c => 10 * a + (c.toNat - 48)) 0

/-- Python int(str): optional surrounding whitespace, an optional sign, and a
nonempty decimal digit run.  (Underscore digit separators and non-decimal
bases exist in Python but are never exercised by this program's inputs and
are not modelled.)  Anything else raises ValueError. -/
def pyIntL (s : List Char) : Except PyError Int :=
  let core : List Char → Except PyError Int := fun ds =>
    if ds ≠ [] ∧ ds.all (·.isDigit) then .ok (natOfDigits ds : Int)
    else .error (.valueError "invalid literal for int() with base 10" "")
  match stripL s with
  | '+' :: ds => core ds
  | '-' :: ds => (core ds).map (fun n => -n)
  | ds => core ds

def pyInt (s : String) : Except PyError Int := pyIntL s.data

/-- Python float(str) restricted to the plain decimal forms this program can
meet: optional whitespace, optional sign, digits with an optional fraction
part (at least one digit overall).  Exponents, inf and nan are not modelled.
Values are exact rationals; every float compared by a claim is a small
decimal fraction. -/
def pyFloatL (s : List Char) : Except PyError Rat :=
  let core : List Char → Except PyError Rat := fun ds =>
    let ip := ds.takeWhile (·.isDigit)
    let rest := ds.dropWhile (·.isDigit)
    match rest with
    | [] =>
        if ip ≠ [] then .ok (natOfDigits ip : Rat)
        else .error (.valueError "could not convert string to float" "")
    | '.' :: fr =>
        if fr.all (·.isDigit) ∧ (ip ≠ [] ∨ fr ≠ []) then
          .ok ((natOfDigits ip : Rat) + (natOfDigits fr : Rat) / ((10 : Rat) ^ fr.length))
        else .error (.valueError "could not convert string to float" "")
    | _ => .error (.valueError "could not convert string to float" "")
  match stripL s with
  | '+' :: ds => core ds
  | '-' :: ds => (core ds).map (fun q => -q)
  | ds => core ds

def pyFloat (s : String) : Except PyError Rat := pyFloatL s.data

/-- Python list indexing l[i], including negative indices counting from the
end; out of range raises IndexError. -/
def pyGetL {α : Type} (l : List α) (i : Int) : Except PyError α :=
  let j : Int := if i < 0 then (l.length : Int) + i else i
  if h : 0 ≤ j ∧ j.toNat < l.length then .ok (l.get ⟨j.toNat, h.2⟩)
  else .error .indexError

/-! ### The regular expressions of the source, as explicit scanners

Each re.search is modelled as a scan that tries the pattern at every start
position from left to right, with the backtracking order of the Python
engine reproduced where a quantifier interacts with what follows it. -/

/-- One start position of re.search(r'--\s*TIKZ: TSV', line) (tokenizer line
483): the literal "--", greedy optional whitespace, then the literal
"TIKZ: TSV". -/
def hasTsvMarkerAt (s : List Char) : Bool :=
  startsWithL s ['-', '-'] &&
    startsWithL ((s.drop 2).dropWhile isPySpace) "TIKZ: TSV".data

/-- re.search(r'--\s*TIKZ: TSV', line): try every start position. -/
def hasTsvMarker : List Char → Bool
  | [] => false
  | c :: s => hasTsvMarkerAt (c :: s) || hasTsvMarker s

/-- One start position of re.search(r'\s*[^\|]+?\s*\|\s*[^\|]+?', line)
(tokenizer line 516).  With full backtracking the pattern matches at some
position exactly when a pipe character has a non-pipe character directly
before it and directly after it (the lazy non-pipe groups absorb one
character each, and the whitespace stars may be empty because whitespace is
itself a non-pipe character). -/
def isHeaderSepAt : List Char → Bool
  | a :: '|' :: b :: _ => a ≠ '|' && b ≠ '|'
  | _ => false

/-- re.search(r'\s*[^\|]+?\s*\|\s*[^\|]+?', line): try every start position. -/
def isHeaderLine : List Char → Bool
  | [] => false
  | c :: s => isHeaderSepAt (c :: s) || isHeaderLine s

def isWordChar (c : Char) : Bool := c.isAlphanum || c = '_'

/-- One start position of re.search(r'\((\d+?)\s\w*\)', line) (tokenizer line
535): an opening parenthesis, a digit run (the lazy plus cannot stop inside
the run because a digit is not whitespace), exactly one whitespace character,
a run of word characters, then the closing parenthesis.  The returned group
is the digit run. -/
def tupleCountAt (s : List Char) : Option (List Char) :=
  match s with
  | '(' :: rest =>
      let ds := rest.takeWhile (·.isDigit)
      let r1 := rest.dropWhile (·.isDigit)
      if ds = [] then none
      else
        match r1 with
        | w :: r2 =>
            if isPySpace w then
              match r2.dropWhile isWordChar with
              | ')' :: _ => some ds
              | _ => none
            else none
        | [] => none
  | _ => none

/-- re.search(r'\((\d+?)\s\w*\)', line): try every start position. -/
def tupleCountSearch : List Char → Option (List Char)
  | [] => none
  | c :: s =>
      match tupleCountAt (c :: s) with
      | some ds => some ds
      | none => tupleCountSearch s

/-- Keyword characters of a TIKZ directive: the class [a-z\-]. -/
def isKeywordChar (c : Char) : Bool := ('a' ≤ c && c ≤ 'z') || c = '-'

/-- One start position of re.search(r'TIKZ:\s*([a-z\-]+?)\s*,\s*(.*)+?', s)
(pgsql_parser line 565): the literal "TIKZ:", whitespace, a nonempty keyword
run (the lazy plus must extend to the full run, because a keyword character
is neither whitespace nor a comma), whitespace, a comma, whitespace; the
second group is the whole remainder of the line. -/
def tikzAt (s : List Char) : Option (String × String) :=
  if startsWithL s "TIKZ:".data then
    let r1 := (s.drop 5).dropWhile isPySpace
    let kw := r1.takeWhile isKeywordChar
    let r2 := r1.dropWhile isKeywordChar
    if kw = [] then none
    else
      match r2.dropWhile isPySpace with
      | ',' :: r3 => some (String.mk kw, String.mk (r3.dropWhile isPySpace))
      | _ => none
  else none

/-- re.search(r'TIKZ:\s*([a-z\-]+?)\s*,\s*(.*)+?', s): try every start
position (a failed tail resumes the search at the next position). -/
def tikzSearch : List Char → Option (String × String)
  | [] => none
  | c :: s =>
      match tikzAt (c :: s) with
      | some r => some r
      | none => tikzSearch s

/-- Group extraction of one start position of
re.search(r'.?(\d+),(\d+).?', s) (format_tikz_tupleline line 396) once the
optional leading dot has been decided: a digit run, a comma, a digit run. -/
def rangeGroupsFrom (r : List Char) : Option (Nat × Nat) :=
  let d1 := r.takeWhile (·.isDigit)
  let r1 := r.dropWhile (·.isDigit)
  if d1 = [] then none
  else
    match r1 with
    | ',' :: r2 =>
        let d2 := r2.takeWhile (·.isDigit)
        if d2 = [] then none else some (natOfDigits d1, natOfDigits d2)
    | _ => none

/-- One start position of re.search(r'.?(\d+),(\d+).?', s): the greedy
optional dot first tries to consume one character (any character but a
newline), and on failure retries with the empty match.  The trailing
optional dot never constrains anything. -/
def rangeGroupsAt (s : List Char) : Option (Nat × Nat) :=
  match s with
  | [] => none
  | c :: rest =>
      if c ≠ '\n' then
        match rangeGroupsFrom rest with
        | some g => some g
        | none => rangeGroupsFrom (c :: rest)
      else rangeGroupsFrom (c :: rest)

/-- re.search(r'.?(\d+),(\d+).?', s): try every start position. -/
def rangeSearch : List Char → Option (Nat × Nat)
  | [] => none
  | c :: s =>
      match rangeGroupsAt (c :: s) with
      | some g => some g
      | none => rangeSearch s

/-! ### The tokenizer (pgsql_tokenizer, lines 468-545) -/

inductive Token
  | COMMENT (s : String)
  | HEADER (cols : List String)
  | TUPLE (cells : List String)
  | TUPLECOUNT (digits : String)
  | COMMAND (s : String)
deriving DecidableEq, Repr

inductive TokState
  | firstline
  | outside
  | header
  | tuples
deriving DecidableEq, Repr

inductive InputType
  | postgres
  | tsv
deriving DecidableEq, Repr

/-- The cell separator tied to the input type (source lines 474 and 486). -/
def value_sep : InputType → Char
  | .postgres => '|'
  | .tsv => '\t'

structure TokSt where
  state : TokState
  input_type : InputType
deriving DecidableEq, Repr

def TokSt.init : TokSt := ⟨TokState.firstline, InputType.postgres⟩

/-- One iteration of the pgsql_tokenizer loop (lines 477-545) on one input
line: the next tokenizer state and the tokens yielded for this line.  The
check order mirrors the source: first-line TSV detection, the blank-line
reset, the comment branch (which yields a COMMENT only in the outside state
and otherwise at most moves header to tuples), the outside branch (COMMAND
or HEADER), then the tuples branch (TUPLECOUNT or TUPLE).  A non-blank,
non-comment line seen in the header state is dropped, as in the source. -/
def tokStep (st : TokSt) (rawline : String) : TokSt × List Token :=
  let line := lstripL rawline.data
  let st1 : TokSt :=
    if st.state = TokState.firstline then { st with state := TokState.outside } else st
  if st.state = TokState.firstline ∧ hasTsvMarker line = true then
    ({ st1 with input_type := InputType.tsv }, [])
  else if rstripL line = [] then
    ({ st1 with state := TokState.outside }, [])
  else if startsWithL line ['-', '-'] = true then
    let toks :=
      if st1.state = TokState.outside then
        [Token.COMMENT (String.mk (rstripL (lstripSetL ['-', ' '] line)))]
      else []
    let st2 := if st1.state = TokState.header then { st1 with state := TokState.tuples } else st1
    (st2, toks)
  else if st1.state = TokState.outside then
    if st1.input_type = InputType.postgres ∧ ¬ (isHeaderLine line = true) then
      (st1, [Token.COMMAND (String.mk (rstripL line))])
    else
      let headers := (splitOnChar (value_sep st1.input_type) line).map (fun h => String.mk (stripL h))
      if st1.input_type = InputType.tsv then
        ({ st1 with state := TokState.tuples }, [Token.HEADER headers])
      else
        ({ st1 with state := TokState.header }, [Token.HEADER headers])
  else if st1.state = TokState.tuples then
    match tupleCountSearch line with
    | some ds => ({ st1 with state := TokState.outside }, [Token.TUPLECOUNT (String.mk ds)])
    | none =>
        (st1,
         [Token.TUPLE ((splitOnChar (value_sep st1.input_type) line).map (fun v => String.mk (stripL v)))])
  else (st1, [])

def tokenizeAux : TokSt → List String → List Token
  | _, [] => []
  | st, l :: ls =>
      let p := tokStep st l
      p.2 ++ tokenizeAux p.1 ls

/-- pgsql_tokenizer (lines 468-545) over a whole line list. -/
def pgsql_tokenizer (lines : List String) : List Token := tokenizeAux TokSt.init lines

/-! ### The Relation class (lines 969-1051) -/

/-- The Relation class (lines 969-1051).  The relType attribute of the
source is assigned once in the constructor and never read again, so it is
omitted.  The desc attribute is not set by the constructor but is assigned
by every relation directive before the relation is ever read through the
configs list; its default here is the empty string. -/
structure Relation where
  schema : List String := []
  values : List (List String) := []
  tsid : Int := -1
  teid : Int := -1
  ypos : Int := -1
  tsname : String := ""
  tename : String := ""
  yposname : String := ""
  name : String := ""
  desc : String := ""
deriving DecidableEq, Repr

/-- Relation.__init__ (lines 970-980). -/
def Relation.init : Relation := {}

/-- Relation.setSchema (lines 982-983). -/
def Relation.setSchema (r : Relation) (schema : List String) : Relation :=
  { r with schema := schema }

/-- Relation.addTuple (lines 985-989).  On a length mismatch the source calls
raise_error("Too many tuple columns for the actual schema: " + self.schema);
the argument is a str + list concatenation, which raises TypeError before
raise_error even runs, so the mismatch surfaces as a TypeError and the row
is not appended. -/
def Relation.addTuple (r : Relation) (tup : List String) : Except PyError Relation :=
  if tup.length = r.schema.length then .ok { r with values := r.values ++ [tup] }
  else .error .typeError

/-- Relation.getTupleTS (lines 991-992): tup[self.tsid], with Python index
semantics (tsid is -1 for a relation whose metadata was never resolved, so
this reads the last cell). -/
def Relation.getTupleTS (r : Relation) (tup : List String) : Except PyError String :=
  pyGetL tup r.tsid

/-- Relation.getTupleTE (lines 994-995). -/
def Relation.getTupleTE (r : Relation) (tup : List String) : Except PyError String :=
  pyGetL tup r.teid

/-- Relation.getTupleYPOS (lines 997-998). -/
def Relation.getTupleYPOS (r : Relation) (tup : List String) : Except PyError String :=
  pyGetL tup r.ypos

/-- Relation.getTupleB (lines 1000-1006): the cells whose position is none of
tsid, teid, ypos. -/
def Relation.getTupleB (r : Relation) (tup : List String) : List String :=
  (tup.enum.filter
    (fun p => ¬ ((p.1 : Int) = r.tsid ∨ (p.1 : Int) = r.teid ∨ (p.1 : Int) = r.ypos))).map (·.2)

/-- Relation.getTupleTB (lines 1008-1014): the cells whose position is not
ypos. -/
def Relation.getTupleTB (r : Relation) (tup : List String) : List String :=
  (tup.enum.filter (fun p => ¬ ((p.1 : Int) = r.ypos))).map (·.2)

/-- Relation.getTuplesTB (lines 1016-1018). -/
def Relation.getTuplesTB (r : Relation) : List (List String) := r.values.map r.getTupleTB

/-- Relation.getSchemaTemporal (lines 1020-1026). -/
def Relation.getSchemaTemporal (r : Relation) : List String :=
  (r.schema.enum.filter (fun p => ¬ ((p.1 : Int) = r.ypos))).map (·.2)

/-- Relation.getLength (lines 1028-1029). -/
def Relation.getLength (r : Relation) : Nat := r.values.length

/-- raise_error (lines 452-457): a ValueError whose first argument is the
message behind the "ERROR: " banner and whose second argument is the hint
(prefixed by "HINT : " when nonempty). -/
def raiseError (msg : String) (hint : String) : PyError :=
  .valueError ("ERROR: pw_pgsql2latex.py: " ++ msg)
    (if hint = "" then "" else "HINT : " ++ hint)

/-- str(list) as Python renders a list of strings, used by the setMetaData
error message. -/
def pyStrList (l : List String) : String :=
  "[" ++ String.intercalate ", " (l.map (fun s => "'" ++ s ++ "'")) ++ "]"

/-- Relation.setMetaData (lines 1037-1051): resolve the column indices of the
temporal and position attributes by (last-occurrence) name lookup over the
schema; a missing ts attribute is fatal, a missing te or ypos attribute is
not.  NOTE: the only call site of this method in the source, pgsql_parser
lines 649-657, is commented out, so the parser never invokes it. -/
def Relation.setMetaData (r : Relation) (tsname tename yposname : String) :
    Except PyError Relation :=
  let r' := r.schema.enum.foldl
    (fun acc p =>
      if tsname = p.2 then { acc with tsid := (p.1 : Int) }
      else if tename = p.2 then { acc with teid := (p.1 : Int) }
      else if yposname = p.2 then { acc with ypos := (p.1 : Int) }
      else acc) r
  if r'.tsid = -1 then
    .error (raiseError
      ("Temporal attribute '" ++ tsname ++ "' not found in table header " ++ pyStrList r.schema) "")
  else .ok r'

/-! ### The parser (pgsql_parser, lines 547-658) -/

/-- One entry of the configs list built by pgsql_parser.  A relation entry
stores the index of its Relation inside the tables list: the source stores
an object reference and later HEADER/TUPLE tokens mutate the same object
through the tables list, which the index models exactly. -/
inductive CfgLine
  | config (key : String) (value : Option String)
  | relationRef (rtype : String) (idx : Nat)
  | timeline (tlFrom tlTo tlStep tlDesc : String)
deriving DecidableEq, Repr

/-- A configs entry with its relation reference resolved against the final
tables list: what the renderers receive. -/
inductive ParsedLine
  | config (key : String) (value : Option String)
  | relationRef (rtype : String) (rel : Relation)
  | timeline (tlFrom tlTo tlStep tlDesc : String)
deriving DecidableEq, Repr

/-- The string stored under the dictionary key "type" of a configs entry. -/
def ParsedLine.typeName : ParsedLine → String
  | .config .. => "config"
  | .relationRef rtype _ => rtype
  | .timeline .. => "timeline"

/-- The parser state: the five local variables of pgsql_parser
(lines 550-554). -/
structure PState where
  configs : List CfgLine := []
  tables : List Relation := []
  table_count : Nat := 0
  configs_count_relation : Nat := 0
  configs_count_timeline : Nat := 0
deriving DecidableEq, Repr

def PState.init : PState := {}

/-- re.split(r'\s*,\s*', s, maxsplit): (before, after) around the first
comma, if any. -/
def findComma : List Char → Option (List Char × List Char)
  | [] => none
  | ',' :: s => some ([], s)
  | c :: s =>
      match findComma s with
      | some p => some (c :: p.1, p.2)
      | none => none

/-- re.split(r'\s*,\s*', s, maxsplit) on character lists: split on commas at
most maxsplit times, consuming the whitespace adjacent to each comma (the
leftmost match of the split pattern starts at the whitespace run directly
before the first comma and ends after the whitespace run directly after
it). -/
def reSplitCommaL : Nat → List Char → List (List Char)
  | 0, s => [s]
  | Nat.succ n, s =>
      match findComma s with
      | none => [s]
      | some p => rstripL p.1 :: reSplitCommaL n (lstripL p.2)

def reSplitComma (maxsplit : Nat) (s : String) : List String :=
  (reSplitCommaL maxsplit s.data).map String.mk

/-- The error of pgsql_parser lines 577-579 (malformed relation directive). -/
def notEnoughRelParamsErr (token1 : String) : PyError :=
  raiseError
    ("Not enough parameters for TIKZ relation or TIKZ relation-table given.\n" ++
     "For example:\n--TIKZ: relation, R, ts, te, ypos, Description string\n" ++
     "Instead the following was given: --" ++ token1) ""

/-- The error of pgsql_parser lines 598-603 (second timeline directive). -/
def dupTimelineErr : PyError :=
  raiseError "More than one TIKZ timeline string found"
    ("Define a single configuration string for the timeline.\n For example:\n" ++
     "-- TIKZ: timeline, from, to, step, time line description")

/-- The error of pgsql_parser lines 607-612 (malformed timeline directive). -/
def wrongTimelineErr (token1 : String) : PyError :=
  raiseError ("Wrong TIKZ timeline string found: '" ++ token1 ++ "'")
    ("Define a correct configuration string for the timeline.\n For example: " ++
     "-- TIKZ: timeline, from, to, step, time line description")

/-- The error of pgsql_parser lines 628-630. -/
def noTablesErr : PyError :=
  raiseError "No tables found! Is this a valid input file?" ""

/-- The error of pgsql_parser lines 633-638 (fewer relation directives than
tables). -/
def tooFewConfigsErr : PyError :=
  raiseError "We do not have enough TIKZ relation config strings"
    ("Define a configuration string for each table.\n" ++
     "For example:\n" ++
     "-- TIKZ: relation, table_name, ts, te, relation description")

/-- The error of pgsql_parser lines 640-647 (more relation directives than
tables). -/
def tooManyConfigsErr : PyError :=
  raiseError
    ("We do not have enough table outputs compared to the amount of " ++
     "TIKZ relation config strings")
    ("Either delete a configuration string for a table, or provide\n" ++
     "an additional SQL-command to produce a table output.\n" ++
     "For example:\n" ++
     "-- TIKZ: relation, table_name, ts, te, relation description")

/-- The COMMENT branch of pgsql_parser (lines 564-614): match the TIKZ
directive pattern and dispatch on the keyword.  A relation directive either
reuses tables[table_count] (when fewer directive-created relations than
header-created tables exist) or creates and appends a fresh Relation,
incrementing configs_count_relation only in the latter case, exactly as the
source does. -/
def stepComment (st : PState) (s : String) : Except PyError PState :=
  match tikzSearch s.data with
  | none => .ok st
  | some (ctype, body) =>
      if ctype = "config" then
        -- dict(zip(['type','key','value'], listitems)): zip truncates, so a
        -- missing second field leaves the value key absent (line 571-572)
        let cfg :=
          match reSplitComma 1 body with
          | [k] => CfgLine.config k none
          | k :: v :: _ => CfgLine.config k (some v)
          | [] => CfgLine.config "" none   -- unreachable: reSplitComma is never empty
        .ok { st with configs := st.configs ++ [cfg] }
      else if ctype = "relation" ∨ ctype = "relation-table" then
        match reSplitComma 4 body with
        | [n, tsn, ten, ypn, d] =>
            if st.configs_count_relation < st.table_count then
              match pyGetL st.tables (st.table_count : Int) with
              | .error e => .error e
              | .ok r =>
                  let r' := { r with name := n, tsname := tsn, tename := ten,
                                     yposname := ypn, desc := d }
                  .ok { st with
                        tables := st.tables.set st.table_count r',
                        configs := st.configs ++ [CfgLine.relationRef ctype st.table_count] }
            else
              let r' := { Relation.init with name := n, tsname := tsn, tename := ten,
                                             yposname := ypn, desc := d }
              .ok { st with
                    tables := st.tables ++ [r'],
                    configs := st.configs ++ [CfgLine.relationRef ctype st.tables.length],
                    configs_count_relation := st.configs_count_relation + 1 }
        | _ => .error (notEnoughRelParamsErr s)
      else if ctype = "timeline" then
        if st.configs_count_timeline = 1 then .error dupTimelineErr
        else
          match reSplitComma 3 body with
          | [f, t, stp, d] =>
              .ok { st with
                    configs := st.configs ++ [CfgLine.timeline f t stp d],
                    configs_count_timeline := st.configs_count_timeline + 1 }
          | _ => .error (wrongTimelineErr s)
      else .ok st

/-- The HEADER branch of pgsql_parser (lines 615-622): reuse
tables[table_count] when more directive-created relations than header-created
tables exist (table_count is NOT incremented on this path), otherwise create
a fresh relation and increment table_count; then set the schema. -/
def stepHeader (st : PState) (cols : List String) : Except PyError PState :=
  if st.configs_count_relation > st.table_count then
    match pyGetL st.tables (st.table_count : Int) with
    | .error e => .error e
    | .ok r => .ok { st with tables := st.tables.set st.table_count (r.setSchema cols) }
  else
    .ok { st with
          tables := st.tables ++ [Relation.init.setSchema cols],
          table_count := st.table_count + 1 }

/-- The TUPLE branch of pgsql_parser (lines 624-626): append the row to
tables[table_count]. -/
def stepTuple (st : PState) (cells : List String) : Except PyError PState :=
  match pyGetL st.tables (st.table_count : Int) with
  | .error e => .error e
  | .ok r =>
      match r.addTuple cells with
      | .error e => .error e
      | .ok r' => .ok { st with tables := st.tables.set st.table_count r' }

/-- One token of the pgsql_parser loop (lines 556-626).  TUPLECOUNT and
COMMAND tokens are ignored by the parser. -/
def parserStep (st : PState) (tok : Token) : Except PyError PState :=
  match tok with
  | .COMMENT s => stepComment st s
  | .HEADER cols => stepHeader st cols
  | .TUPLE cells => stepTuple st cells
  | .TUPLECOUNT _ => .ok st
  | .COMMAND _ => .ok st

/-- Resolve a configs entry against the final tables list (the object
aliasing of the source). -/
def resolveCfg (tables : List Relation) : CfgLine → ParsedLine
  | .config k v => .config k v
  | .relationRef t i => .relationRef t ((tables.get? i).getD Relation.init)
  | .timeline f t s d => .timeline f t s d

/-- The parser loop over a token list. -/
def parserRun (toks : List Token) : Except PyError PState :=
  toks.foldlM parserStep PState.init

/-- pgsql_parser (lines 547-658; the source name ends in a suffix this
development cannot use for a declaration).  After the token loop the final
cardinality checks of lines 628-647 run, then the configs list is returned
with each relation entry bound to its (shared, mutated) Relation.  The block
at lines 649-657, which would call Relation.setMetaData on every
relation-directive entry, is commented out in the source, so all returned
relations keep tsid = teid = ypos = -1. -/
def pgsqlParser (text : List String) : Except PyError (List ParsedLine) :=
  match parserRun (pgsql_tokenizer text) with
  | .error e => .error e
  | .ok st =>
      if st.configs_count_relation = 0 then .error noTablesErr
      else if st.configs_count_relation < st.tables.length then .error tooFewConfigsErr
      else if st.configs_count_relation > st.tables.length then .error tooManyConfigsErr
      else .ok (st.configs.map (resolveCfg st.tables))

/-! ### The renderers (format_tikz_*, format_latex_table)

The TEX template strings themselves are pure serialization (the spec treats
them as external collaborators); the renderers here return the values the
source substitutes into the templates, and raise exactly where the source
raises.  Python float arithmetic on the coordinate values is modelled over
Rat: every value a claim compares is a small decimal fraction. -/

/-- Which label text the tuple template receives (format_tikz_tupleline
lines 412-418): only the tuple ordinal, only the attribute list, or both. -/
inductive LabelForm
  | idOnly
  | attribsOnly
  | nameAndAttribs
deriving DecidableEq, Repr

/-- The values format_tikz_tupleline substitutes into its template (lines
423-430), plus the template choice: point is true when TEMPLATE_TIKZ_POINT
was selected. -/
structure TupleLineOut where
  point : Bool
  name : String
  id : Nat
  ts : Int
  te : Int
  count : Rat
  posx : Rat
  posy : Rat
  attribs : List String
  labelForm : LabelForm
deriving DecidableEq, Repr

/-- The extent resolution of format_tikz_tupleline (lines 391-404): when
teid is resolved, the ts and te cells are parsed as ints; otherwise the
range-literal regex is searched in the ts cell, and if it fails the cell is
parsed as a single int v with extent (v, v + 1) and the point template is
chosen (the Bool component). -/
def tuplelineExtent (relation : Relation) (tup : List String) :
    Except PyError (Int × Int × Bool) :=
  if relation.teid ≠ -1 then
    match relation.getTupleTS tup with
    | .error e => .error e
    | .ok s =>
        match pyInt s with
        | .error e => .error e
        | .ok ts =>
            match relation.getTupleTE tup with
            | .error e => .error e
            | .ok t =>
                match pyInt t with
                | .error e => .error e
                | .ok te => .ok (ts, te, false)
  else
    match relation.getTupleTS tup with
    | .error e => .error e
    | .ok s =>
        match rangeSearch s.data with
        | some g => .ok ((g.1 : Int), (g.2 : Int), false)
        | none =>
            match pyInt s with
            | .error e => .error e
            | .ok v => .ok (v, v + 1, true)

/-- The count override of format_tikz_tupleline (lines 420-421): a relation
with a resolved ypos column takes each tuple's vertical coordinate from that
column, parsed as a float; otherwise the running counter passed by the
caller is used unchanged. -/
def tuplelineCount (relation : Relation) (tup : List String) (count : Rat) :
    Except PyError Rat :=
  if relation.ypos ≠ -1 then
    match relation.getTupleYPOS tup with
    | .error e => .error e
    | .ok v => pyFloat v
  else .ok count

/-- format_tikz_tupleline (lines 384-430).  The source receives the parsed
line dictionary and immediately projects relation = cfg['relation']; the
relation is passed directly here.  posy is count - 0.2 (decimal arithmetic
over Rat). -/
def format_tikz_tupleline (tup : List String) (relation : Relation)
    (tuple_count : Nat) (count : Rat) : Except PyError TupleLineOut :=
  match tuplelineExtent relation tup with
  | .error e => .error e
  | .ok ext =>
      let attribs := relation.getTupleB tup
      let labelForm :=
        if attribs.length = 0 then LabelForm.idOnly
        else if relation.name = "" then LabelForm.attribsOnly
        else LabelForm.nameAndAttribs
      match tuplelineCount relation tup count with
      | .error e => .error e
      | .ok cnt =>
          .ok { point := ext.2.2, name := relation.name, id := tuple_count,
                ts := ext.1, te := ext.2.1, count := cnt,
                posx := ((ext.1 : Rat) + (ext.2.1 : Rat)) / 2,
                posy := cnt - 1/5,
                attribs := attribs, labelForm := labelForm }

/-- One element of the rendered figure body. -/
inductive FigElem
  | desc (pos : Rat) (text : String)
  | timeline (tlStart tlEnd : Int) (tlStep : Option Int) (tlDesc : String) (posNumbers : Nat)
  | tupleline (t : TupleLineOut)
deriving DecidableEq, Repr

/-- format_tikz_timeline (lines 432-450): pos_numbers is fixed at 5; the
from and to fields always parse as ints, and the step field too when it is
nonempty (a truthy string selects the stepped template). -/
def format_tikz_timeline (tlFrom tlTo tlStep tlDesc : String) : Except PyError FigElem :=
  if tlStep ≠ "" then
    match pyInt tlFrom with
    | .error e => .error e
    | .ok a =>
        match pyInt tlTo with
        | .error e => .error e
        | .ok b =>
            match pyInt tlStep with
            | .error e => .error e
            | .ok c => .ok (FigElem.timeline a b (some c) tlDesc 5)
  else
    match pyInt tlFrom with
    | .error e => .error e
    | .ok a =>
        match pyInt tlTo with
        | .error e => .error e
        | .ok b => .ok (FigElem.timeline a b none tlDesc 5)

/-- One row of the maximum scan over declared y values (format_tikz_figure
lines 680-682).  The source evaluates float(v[ypos]) twice per row with the
same result; it is evaluated once here. -/
def countAboveStep (relation : Relation) (m : Rat) (v : List String) : Except PyError Rat :=
  match pyGetL v relation.ypos with
  | .error e => .error e
  | .ok c =>
      match pyFloat c with
      | .error e => .error e
      | .ok x => .ok (if m < x then x else m)

/-- The per-relation contribution to count_above (format_tikz_figure lines
675-685): for a ypos relation, one plus the maximum of 1.0 and the declared
y values of its rows; otherwise the tuple count minus one. -/
def countAboveRel (relation : Relation) : Except PyError Rat :=
  if relation.ypos ≠ -1 then
    match relation.values.foldlM (countAboveStep relation) (1 : Rat) with
    | .error e => .error e
    | .ok m => .ok (m + 1)
  else .ok ((relation.getLength : Rat) - 1)

/-- count_above (format_tikz_figure lines 666-687): sum the per-relation
contributions of the lines before the first timeline line (config lines have
no relation key and are skipped). -/
def countAbovePre : List ParsedLine → Except PyError Rat
  | [] => .ok 0
  | .timeline .. :: _ => .ok 0
  | .relationRef _ r :: rest =>
      match countAboveRel r with
      | .error e => .error e
      | .ok a =>
          match countAbovePre rest with
          | .error e => .error e
          | .ok b => .ok (a + b)
  | .config .. :: rest => countAbovePre rest

/-- The per-relation tuple loop of format_tikz_figure (lines 715-717):
enumerate from 1, emit one tuple line per row, and decrement posy once per
row (also for relations whose tuples take their coordinate from a ypos
column).  Returns the emitted elements and the final posy. -/
def tupleLoop (relation : Relation) :
    List (List String) → Nat → Rat → Except PyError (List FigElem × Rat)
  | [], _, posy => .ok ([], posy)
  | tup :: rest, tuple_count, posy =>
      match format_tikz_tupleline tup relation tuple_count posy with
      | .error e => .error e
      | .ok o =>
          match tupleLoop relation rest (tuple_count + 1) (posy - 1) with
          | .error e => .error e
          | .ok p => .ok (FigElem.tupleline o :: p.1, p.2)

/-- The main loop of format_tikz_figure (lines 693-717): skip lines that are
not timeline/relation/relation-table, emit the timeline and reset posy to
-2, and for each relation emit the optional description node (anchored at
posy minus half the tuple count minus one, true division) followed by its
tuple lines. -/
def figureLines : List ParsedLine → Rat → Except PyError (List FigElem)
  | [], _ => .ok []
  | .config .. :: rest, posy => figureLines rest posy
  | .timeline f t s d :: rest, _ =>
      match format_tikz_timeline f t s d with
      | .error e => .error e
      | .ok e1 =>
          match figureLines rest (-2) with
          | .error e => .error e
          | .ok es => .ok (e1 :: es)
  | .relationRef rtype r :: rest, posy =>
      if rtype = "relation" ∨ rtype = "relation-table" then
        let descEls :=
          if stripL r.desc.data ≠ [] then
            [FigElem.desc (posy - ((r.getLength : Rat) - 1) / 2) r.desc]
          else []
        match tupleLoop r r.values 1 posy with
        | .error e => .error e
        | .ok p =>
            match figureLines rest p.2 with
            | .error e => .error e
            | .ok es => .ok (descEls ++ p.1 ++ es)
      else figureLines rest posy

/-- list_get (lines 800-804) over the config dictionary: the value under a
key, if present. -/
def list_get (cfg : List (String × String)) (k : String) : Option String :=
  (cfg.find? (fun p => p.1 = k)).map (·.2)

/-- The rendered figure: its body elements, and the xscale/yscale strings of
the config dictionary (the defaults 0.65 and 0.4 are substituted inside the
TEX template when the entry is absent). -/
structure FigureOut where
  content : List FigElem
  xscale : Option String
  yscale : Option String
deriving DecidableEq, Repr

/-- format_tikz_figure (lines 660-719). -/
def format_tikz_figure (parse_result : List ParsedLine) (cfg : List (String × String)) :
    Except PyError FigureOut :=
  match countAbovePre parse_result with
  | .error e => .error e
  | .ok ca =>
      match figureLines parse_result ca with
      | .error e => .error e
      | .ok els => .ok ⟨els, list_get cfg "xscale", list_get cfg "yscale"⟩

/-- The error of format_latex_table lines 738-740. -/
def wrongTypeTableErr (t : String) : PyError :=
  raiseError
    ("Latex Print Table: Provided config-line has wrong type '" ++ t ++
     "' (type 'relation' expected)") ""

/-- The content format_latex_table substitutes into one of its three table
templates (the template choice is table_type). -/
structure TableOut where
  caption : String
  tabLabel : String
  headerCols : List String
  rows : List (Nat × List String)
  relName : String
  tableType : Nat
deriving DecidableEq, Repr

/-- format_latex_table (lines 735-776): reject lines that are not of type
relation/relation-table, otherwise emit the temporal schema as header and
the rows (position column removed) numbered from 1, tagged with the relation
name. -/
def format_latex_table (line : ParsedLine) (label : String) (table_type : Nat) :
    Except PyError TableOut :=
  match line with
  | .relationRef rtype r =>
      if rtype = "relation" ∨ rtype = "relation-table" then
        .ok { caption := r.desc, tabLabel := label,
              headerCols := r.getSchemaTemporal,
              rows := r.getTuplesTB.enum.map (fun p => (p.1 + 1, p.2)),
              relName := r.name, tableType := table_type }
      else .error (wrongTypeTableErr rtype)
  | other => .error (wrongTypeTableErr other.typeName)

/-! ### Observations used by the claims -/

/-- The vertical coordinate of a figure element, when it is a tuple line. -/
def countOf : FigElem → Option Rat
  | .tupleline o => some o.count
  | _ => none

/-- The vertical coordinates of the tuple lines of a figure, in emission
order. -/
def figureCounts (f : FigureOut) : List Rat := f.content.filterMap countOf

def isHeaderTok : Token → Bool
  | .HEADER _ => true
  | _ => false

/-- The number of table-header blocks in a token stream. -/
def countHeaders (toks : List Token) : Nat := (toks.filter isHeaderTok).length

/-- Is a token a relation / relation-table TIKZ directive comment? -/
def isRelationDirective (tok : Token) : Bool :=
  match tok with
  | .COMMENT s =>
      match tikzSearch s.data with
      | some p => p.1 = "relation" || p.1 = "relation-table"
      | none => false
  | _ => false

def countRelationDirectives (toks : List Token) : Nat :=
  (toks.filter isRelationDirective).length

/-- Is a token a timeline TIKZ directive comment? -/
def isTimelineDirective (tok : Token) : Bool :=
  match tok with
  | .COMMENT s =>
      match tikzSearch s.data with
      | some p => p.1 = "timeline"
      | none => false
  | _ => false

def countTimelineDirectives (toks : List Token) : Nat :=
  (toks.filter isTimelineDirective).length

/-- The resolved temporal indices of a parsed line, when it is a relation. -/
def relTsTe : ParsedLine → Option (Int × Int)
  | .relationRef _ r => some (r.tsid, r.teid)
  | _ => none

/-! ### Safety conditions under which the diagram renderer is total -/

/-- All conversions format_tikz_tupleline performs on one row succeed: the
extent resolution and (for a ypos relation) the float parse of the y cell.
The running counter passed for the count check is irrelevant to success. -/
def tupleSafe (r : Relation) (tup : List String) : Bool :=
  isOkE (tuplelineExtent r tup) && isOkE (tuplelineCount r tup 0)

/-- The timeline fields parse as ints (the step only when nonempty). -/
def timelineSafe (f t s : String) : Bool :=
  isOkE (pyInt f) && isOkE (pyInt t) && (s = "" || isOkE (pyInt s))

/-- Every conversion the diagram renderer performs on the model succeeds. -/
def diagramSafe (lines : List ParsedLine) : Bool :=
  lines.all fun l =>
    match l with
    | .timeline f t s _ => timelineSafe f t s
    | .relationRef _ r => r.values.all (tupleSafe r)
    | .config .. => true

instance {ε α : Type} [DecidableEq ε] [DecidableEq α] : DecidableEq (Except ε α)
  | .error e, .error f =>
      if h : e = f then .isTrue (by rw [h])
      else .isFalse (by intro c; injection c; exact h (by assumption))
  | .error _, .ok _ => .isFalse (by intro c; injection c)
  | .ok _, .error _ => .isFalse (by intro c; injection c)
  | .ok a, .ok b =>
      if h : a = b then .isTrue (by rw [h])
      else .isFalse (by intro c; injection c; exact h (by assumption))

/-! ### Concrete inputs and models used by the claims -/

/-- A minimal well-formed input: one relation directive followed by its
table, with the ts and te columns named ts and te in a header a, ts, te. -/
def directiveFirstInput : List String :=
  ["-- TIKZ: relation, r, ts, te,, Description",
   " a | ts | te",
   "---+----+----",
   " B | 1 | 7"]

/-- The same single table, with its relation directive after the data. -/
def dataFirstInput : List String :=
  [" a | ts | te",
   "---+----+----",
   " B | 1 | 7",
   "",
   "-- TIKZ: relation, r, ts, te,, Description"]

/-- Two relation directives but only one table-header block. -/
def twoDirectivesOneTableInput : List String :=
  ["-- TIKZ: relation, r, ts, te,, DescA",
   "-- TIKZ: relation, s, ts, te,, DescB",
   " a | ts | te",
   "---+----+----",
   " B | 1 | 7"]

/-- A timeline directive, then a full table, with no second timeline yet. -/
def timelineTablePrefixInput : List String :=
  ["-- TIKZ: timeline, 0, 9, 1, time",
   "-- TIKZ: relation, r, ts, te,, DescA",
   " a | ts | te",
   "---+----+----",
   " B | 1 | 7",
   ""]

/-- The same input with a second timeline directive as the last line. -/
def twoTimelinesInput : List String :=
  timelineTablePrefixInput ++ ["-- TIKZ: timeline, 0, 9, 1, time"]

/-- A well-formed input whose last column holds a non-numeric attribute: it
parses, and the diagram renderer then fails on it (the unresolved tsid of -1
makes the renderer read the last cell as the time value). -/
def nonNumericLastCellInput : List String :=
  ["-- TIKZ: relation, r, ts, te,, DescR",
   " ts | te | a",
   "---+----+---",
   " 1 | 7 | B"]

/-- A relation as the claims build one directly for the layout level: ypos
resolved to column 2, whose two rows carry y values 1.5 and 0.5. -/
def yposRelation : Relation :=
  { schema := ["ts", "te", "y"], values := [["1", "7", "1.5"], ["2", "5", "0.5"]],
    tsid := 0, teid := 1, ypos := 2, name := "A", desc := "above" }

/-- A one-tuple relation stacked after the ypos relation. -/
def plainRelation : Relation :=
  { schema := ["ts", "te"], values := [["3", "6"]],
    tsid := 0, teid := 1, name := "B", desc := "plain" }

/-- The layout model of the C7 scenario: the ypos relation followed by a
sequentially stacked relation. -/
def yposModel : List ParsedLine :=
  [ParsedLine.relationRef "relation" yposRelation,
   ParsedLine.relationRef "relation" plainRelation]

/-- Three relations with 2, 1 and 3 tuples, stacked before the timeline. -/
def c8rel1 : Relation :=
  { schema := ["ts", "te"], values := [["1", "3"], ["2", "5"]],
    tsid := 0, teid := 1, name := "R", desc := "first" }

def c8rel2 : Relation :=
  { schema := ["ts", "te"], values := [["1", "4"]],
    tsid := 0, teid := 1, name := "S", desc := "second" }

def c8rel3 : Relation :=
  { schema := ["ts", "te"], values := [["0", "2"], ["3", "5"], ["6", "8"]],
    tsid := 0, teid := 1, name := "T", desc := "third" }

def stackingModel : List ParsedLine :=
  [ParsedLine.relationRef "relation" c8rel1,
   ParsedLine.relationRef "relation" c8rel2,
   ParsedLine.relationRef "relation" c8rel3,
   ParsedLine.timeline "0" "9" "" "time"]

/-- A fresh relation with the header a, ts (no te column), before metadata
resolution. -/
def c3Rel : Relation := { Relation.init with schema := ["a", "ts"] }

/-- The same relation after setMetaData with ts column ts and empty te
column: tsid resolves to 1, teid stays -1. -/
def c3RelResolved : Relation := { c3Rel with tsid := 1 }

/-- A three-column relation named r, used against a four-cell row. -/
def c9Rel : Relation := { Relation.init with name := "r", schema := ["a", "ts", "te"] }

/-! ### Helper lemmas -/

theorem rstripL_eq_nil {s : List Char} (h : rstripL s = []) : ∀ c ∈ s, isPySpace c = true := by
  unfold rstripL at h
  have h2 : s.reverse.dropWhile isPySpace = [] := by
    have h3 := congrArg List.reverse h
    simpa using h3
  intro c hc
  exact List.dropWhile_eq_nil_iff.mp h2 c (List.mem_reverse.mpr hc)

/-- A line that starts with the comment marker is not blank. -/
theorem comment_line_nonblank {s : List Char} (h : startsWithL s ['-', '-'] = true) :
    rstripL s ≠ [] := by
  cases s with
  | nil => simp [startsWithL] at h
  | cons c s' =>
      simp only [startsWithL, Bool.and_eq_true, decide_eq_true_eq] at h
      intro hnil
      have hsp := rstripL_eq_nil hnil c (by simp)
      rw [h.1] at hsp
      exact absurd hsp (by decide)

/-! ### The claims -/

/-- C1: the claim says that after parsing, a relation with header a, ts, te
and directive naming ts and te resolves ts_index = 1 and te_index = 2.  The
resolution lives in Relation.setMetaData, whose only call site (pgsql_parser
lines 649-657) is commented out, so the parser returns the relation with
tsid = teid = -1; setMetaData itself, applied to that schema, would indeed
produce (1, 2).  The claim is therefore a code bug: the spec describes the
clear intent (and the documented behavior of the tool), and the disabled
call is the slip. -/
theorem C1_metadata_never_resolved :
    (pgsqlParser directiveFirstInput).map (fun ls => ls.map relTsTe) = .ok [some (-1, -1)]
  ∧ (Relation.setMetaData { Relation.init with schema := ["a", "ts", "te"] } "ts" "te" "").map
      (fun r => (r.tsid, r.teid)) = .ok (1, 2) := by
  constructor
  · decide
  · decide

/-- C2: the claim says the parser accepts exactly the inputs whose
table-header count equals the relation-directive count and raises a distinct
error in each mismatch direction.  In the source the two end-of-parse checks
compare configs_count_relation against len(tables), but every
directive-created relation is appended to tables and header tokens reuse
slot table_count without ever advancing it once a directive exists, so the
two counters can never witness a mismatch: here an input with two relation
directives and a single table-header block parses without error. -/
theorem C2_count_check_ineffective :
    isOkE (pgsqlParser twoDirectivesOneTableInput) = true
  ∧ countHeaders (pgsql_tokenizer twoDirectivesOneTableInput) = 1
  ∧ countRelationDirectives (pgsql_tokenizer twoDirectivesOneTableInput) = 2 := by
  refine ⟨by decide, by decide, by decide⟩

/-- C5: the claim says directive-before-data and data-before-directive bind
the same document model.  In the source the TUPLE branch reads
tables[table_count], and a header that precedes every directive leaves
table_count = len(tables), so the very first data row of a
data-before-directive input raises IndexError, while the same table with the
directive first parses fine. -/
theorem C5_order_dependent_crash :
    pgsqlParser dataFirstInput = .error PyError.indexError
  ∧ isOkE (pgsqlParser directiveFirstInput) = true := by
  refine ⟨by decide, by decide⟩

/-- C9 counterexample: a four-cell row against the three-column schema of a
relation named r is rejected, but not with a fatal schema-mismatch
ValueError naming the relation: the message construction
"Too many tuple columns for the actual schema: " + self.schema concatenates
a str and a list and raises TypeError itself, so no message mentioning
anything is ever produced. -/
theorem C9_counterexample :
    Relation.addTuple c9Rel ["B", "1", "7", "x"] = .error PyError.typeError
  ∧ Relation.addTuple c9Rel ["B", "1", "7", "x"] ≠
      .error (raiseError ("Too many tuple columns for the actual schema: " ++ pyStrList c9Rel.schema) "") := by
  refine ⟨by decide, by decide⟩

/-- C9 (amended): a row whose cell count differs from the schema length is
rejected --- the row is not appended, since addTuple returns an exception
instead of an updated relation --- but the exception is the TypeError raised
while building the error message, not a formatted schema-mismatch error
identifying the relation. -/
theorem C9_schema_mismatch_typeerror :
    ∀ (r : Relation) (tup : List String),
    tup.length ≠ r.schema.length →
    Relation.addTuple r tup = .error PyError.typeError := by
  intro r tup h
  unfold Relation.addTuple
  simp [h]

theorem C9_witness :
    (["B", "1", "7", "x"].length ≠ c9Rel.schema.length)
  ∧ Relation.addTuple c9Rel ["B", "1", "7", "x"] = .error PyError.typeError :=
  ⟨by decide, C9_schema_mismatch_typeerror c9Rel ["B", "1", "7", "x"] (by decide)⟩

/-- C4 counterexample: the duplicate-timeline error is raised only when the
second timeline directive token is processed, not before any table is
parsed.  Here the token stream of the two-timeline input is the stream of
its prefix followed by the second timeline comment; the single-pass parser
maps the prefix to a state that already holds a fully parsed table (one
relation with the row B, 1, 7), and only the full input is rejected with the
duplicate-timeline error. -/
theorem C4_counterexample :
    pgsql_tokenizer twoTimelinesInput =
      pgsql_tokenizer timelineTablePrefixInput ++ [Token.COMMENT "TIKZ: timeline, 0, 9, 1, time"]
  ∧ (parserRun (pgsql_tokenizer timelineTablePrefixInput)).map
      (fun st => st.tables.map (fun r => r.values)) = .ok [[["B", "1", "7"]]]
  ∧ pgsqlParser twoTimelinesInput = .error dupTimelineErr := by
  refine ⟨by decide, by decide, by decide⟩

/-- C6 counterexample: a model that passes all parsing validation on which
the diagram projection is not total.  The input parses without error, but
rendering converts tuple cells to integers only at drawing time: the
unresolved tsid of -1 makes format_tikz_tupleline read the last cell B,
whose int() conversion raises ValueError inside format_tikz_figure. -/
theorem C6_counterexample :
    isOkE (pgsqlParser nonNumericLastCellInput) = true
  ∧ isOkE ((pgsqlParser nonNumericLastCellInput).bind
      (fun m => format_tikz_figure m [])) = false := by
  refine ⟨by decide, by decide⟩

/-- C7 counterexample: in a layout model with a resolved ypos relation (two
rows with y values 1.5 and 0.5) followed by a one-tuple relation, the ypos
tuples are placed at 1.5 and 0.5, but the running counter is still
decremented once per ypos tuple: the pre-pass offset is 2.5, and the
following relation's tuple lands at 0.5 = 2.5 - 2 instead of at 2.5, so
placing the ypos tuples does consume the sequential counter, contrary to the
claim. -/
theorem C7_counterexample :
    (format_tikz_figure yposModel []).map figureCounts = .ok [3/2, 1/2, 1/2]
  ∧ countAbovePre yposModel = .ok (5/2) := by
  refine ⟨by decide, by decide⟩

/-- C10: while the tokenizer is inside a table block (states header or
tuples), a comment line produces no token at all: a COMMENT is yielded only
in the outside state, so a TIKZ directive written between a header and its
rows, or between rows, is silently dropped. -/
theorem C10_comment_in_table_swallowed :
    ∀ (st : TokSt) (line : String),
    st.state = TokState.header ∨ st.state = TokState.tuples →
    startsWithL (lstripL line.data) ['-', '-'] = true →
    (tokStep st line).2 = [] := by
  intro st line hst hcmt
  obtain ⟨s0, it⟩ := st
  simp only at hst
  have hnb := comment_line_nonblank hcmt
  rcases hst with h | h <;> subst h <;>
    simp [tokStep, hcmt, hnb]

theorem C10_witness :
    startsWithL (lstripL ("-- TIKZ: config, key, value" : String).data) ['-', '-'] = true
  ∧ (tokStep ⟨TokState.tuples, InputType.postgres⟩ "-- TIKZ: config, key, value").2 = [] :=
  ⟨by decide,
   C10_comment_in_table_swallowed ⟨TokState.tuples, InputType.postgres⟩
     "-- TIKZ: config, key, value" (Or.inr rfl) (by decide)⟩

/-- C3: for a relation whose directive has an empty te column (so
setMetaData resolves tsid but leaves teid at -1), a ts cell holding the
range literal string resolves to the extent (3, 9) through the range-literal
search, and a bare scalar cell resolves to (5, 6) with the point template
chosen.  This confirms the extent-resolution step of format_tikz_tupleline
as the claim states it. -/
theorem C3_range_literal_fallback :
    ∀ (r r' : Relation), r.schema = ["a", "ts"] → r.teid = -1 → r.ypos = -1 →
    Relation.setMetaData r "ts" "" "" = .ok r' →
    ∀ (a : String) (tc : Nat) (c : Rat),
      (format_tikz_tupleline [a, "[3,9)"] r' tc c).map (fun o => (o.ts, o.te, o.point))
        = .ok (3, 9, false)
    ∧ (format_tikz_tupleline [a, "5"] r' tc c).map (fun o => (o.ts, o.te, o.point))
        = .ok (5, 6, true) := by
  intro r r' hschema hte hyp hmeta a tc c
  have hne1 : ¬ ("ts" : String) = "a" := by decide
  have hne2 : ¬ ("" : String) = "a" := by decide
  have hne3 : ¬ ("" : String) = "ts" := by decide
  have hr' : r' = { r with tsid := 1 } := by
    unfold Relation.setMetaData at hmeta
    rw [hschema] at hmeta
    simp [List.enum, List.enumFrom, List.foldl, hne1, hne2, hne3] at hmeta
    exact hmeta.symm
  subst hr'
  constructor
  · unfold format_tikz_tupleline tuplelineExtent
    simp [hte, Relation.getTupleTS, pyGetL,
          show rangeSearch "[3,9)".data = some (3, 9) from by decide,
          tuplelineCount, hyp, Except.map]
  · unfold format_tikz_tupleline tuplelineExtent
    simp [hte, Relation.getTupleTS, pyGetL,
          show rangeSearch "5".data = none from by decide,
          show pyInt "5" = .ok 5 from by decide,
          tuplelineCount, hyp, Except.map]

theorem C3_witness :
    Relation.setMetaData c3Rel "ts" "" "" = .ok c3RelResolved
  ∧ (format_tikz_tupleline ["B", "[3,9)"] c3RelResolved 1 0).map
      (fun o => (o.ts, o.te, o.point)) = .ok (3, 9, false)
  ∧ (format_tikz_tupleline ["B", "5"] c3RelResolved 1 0).map
      (fun o => (o.ts, o.te, o.point)) = .ok (5, 6, true) :=
  ⟨by decide,
   (C3_range_literal_fallback c3Rel c3RelResolved rfl rfl rfl (by decide) "B" 1 0).1,
   (C3_range_literal_fallback c3Rel c3RelResolved rfl rfl rfl (by decide) "B" 1 0).2⟩

/-! ### Machinery for the duplicate-timeline analysis (claim C4) -/

/-- The hint argument carried by a ValueError. -/
def errHint : PyError → String
  | .valueError _ h => h
  | _ => ""

theorem pyGetL_error {α : Type} {l : List α} {i : Int} {e : PyError}
    (h : pyGetL l i = .error e) : e = .indexError := by
  simp only [pyGetL] at h
  split at h <;> split at h <;> simp_all

theorem addTuple_error {r : Relation} {tup : List String} {e : PyError}
    (h : Relation.addTuple r tup = .error e) : e = .typeError := by
  unfold Relation.addTuple at h
  split at h
  · exact absurd h (by simp)
  · simp only [Except.error.injEq] at h
    exact h.symm

theorem notEnough_ne_dup (s : String) : notEnoughRelParamsErr s ≠ dupTimelineErr := by
  intro h
  have h2 : ("" : String) = errHint dupTimelineErr := congrArg errHint h
  exact absurd h2 (by decide)

theorem wrongTimeline_ne_dup (s : String) : wrongTimelineErr s ≠ dupTimelineErr := by
  intro h
  have h2 : ("HINT : Define a correct configuration string for the timeline.\n For example: -- TIKZ: timeline, from, to, step, time line description" : String)
      = errHint dupTimelineErr := congrArg errHint h
  exact absurd h2 (by decide)

theorem indexError_ne_dup : PyError.indexError ≠ dupTimelineErr := by decide

theorem typeError_ne_dup : PyError.typeError ≠ dupTimelineErr := by decide

/-- The duplicate-timeline error can only arise from a timeline directive
token processed while configs_count_timeline is already 1. -/
theorem parserStep_dup {st : PState} {tok : Token}
    (h : parserStep st tok = .error dupTimelineErr) :
    isTimelineDirective tok = true ∧ st.configs_count_timeline = 1 := by
  cases tok with
  | COMMENT s =>
      unfold parserStep stepComment at h
      dsimp only at h
      unfold isTimelineDirective
      cases htk : tikzSearch s.data with
      | none => rw [htk] at h; exact absurd h (by simp)
      | some p =>
          rw [htk] at h
          obtain ⟨k, body⟩ := p
          dsimp only at h ⊢
          split at h
          · exact absurd h (by simp)
          · split at h
            · split at h
              · split at h
                · split at h
                  · rename_i e heq
                    simp only [Except.error.injEq] at h
                    exact absurd (h ▸ pyGetL_error heq).symm indexError_ne_dup
                  · exact absurd h (by simp)
                · exact absurd h (by simp)
              · simp only [Except.error.injEq] at h
                exact absurd h.symm (by intro h2; exact notEnough_ne_dup _ h2.symm)
            · split at h
              · split at h
                · rename_i hk hcnt
                  constructor
                  · rw [htk]
                    simp [hk]
                  · exact hcnt
                · split at h
                  · exact absurd h (by simp)
                  · simp only [Except.error.injEq] at h
                    exact absurd h.symm (by intro h2; exact wrongTimeline_ne_dup _ h2.symm)
              · exact absurd h (by simp)
  | HEADER cols =>
      unfold parserStep stepHeader at h
      dsimp only at h
      split at h
      · split at h
        · rename_i e heq
          simp only [Except.error.injEq] at h
          exact absurd (h ▸ pyGetL_error heq).symm indexError_ne_dup
        · exact absurd h (by simp)
      · exact absurd h (by simp)
  | TUPLE cells =>
      unfold parserStep stepTuple at h
      dsimp only at h
      split at h
      · rename_i e heq
        simp only [Except.error.injEq] at h
        exact absurd (h ▸ pyGetL_error heq).symm indexError_ne_dup
      · split at h
        · rename_i e heq
          simp only [Except.error.injEq] at h
          exact absurd (h ▸ addTuple_error heq).symm typeError_ne_dup
        · exact absurd h (by simp)
  | TUPLECOUNT d => exact absurd h (by simp [parserStep])
  | COMMAND s => exact absurd h (by simp [parserStep])

/-- A successful parser step increases configs_count_timeline by at most the
number of timeline directives in the token (zero or one). -/
theorem parserStep_cct {st st' : PState} {tok : Token}
    (h : parserStep st tok = .ok st') :
    st'.configs_count_timeline ≤ st.configs_count_timeline +
      (if isTimelineDirective tok = true then 1 else 0) := by
  cases tok with
  | COMMENT s =>
      unfold parserStep stepComment at h
      dsimp only at h
      cases htk : tikzSearch s.data with
      | none =>
          rw [htk] at h
          simp only [Except.ok.injEq] at h
          rw [← h]
          omega
      | some p =>
          rw [htk] at h
          obtain ⟨k, body⟩ := p
          dsimp only at h
          split at h
          · simp only [Except.ok.injEq] at h
            rw [← h]
            simp
          · split at h
            · split at h
              · split at h
                · split at h
                  · exact absurd h (by simp)
                  · simp only [Except.ok.injEq] at h
                    rw [← h]
                    simp
                · simp only [Except.ok.injEq] at h
                  rw [← h]
                  simp
              · exact absurd h (by simp)
            · split at h
              · split at h
                · exact absurd h (by simp)
                · split at h
                  · simp only [Except.ok.injEq] at h
                    rw [← h]
                    have hkk : k = "timeline" := by assumption
                    have htldir : isTimelineDirective (Token.COMMENT s) = true := by
                      simp [isTimelineDirective, htk, hkk]
                    simp [htldir]
                  · exact absurd h (by simp)
              · simp only [Except.ok.injEq] at h
                rw [← h]
                omega
  | HEADER cols =>
      unfold parserStep stepHeader at h
      dsimp only at h
      split at h
      · split at h
        · exact absurd h (by simp)
        · simp only [Except.ok.injEq] at h
          rw [← h]
          simp
      · simp only [Except.ok.injEq] at h
        rw [← h]
        simp
  | TUPLE cells =>
      unfold parserStep stepTuple at h
      dsimp only at h
      split at h
      · exact absurd h (by simp)
      · split at h
        · exact absurd h (by simp)
        · simp only [Except.ok.injEq] at h
          rw [← h]
          simp
  | TUPLECOUNT d =>
      simp only [parserStep, Except.ok.injEq] at h
      rw [← h]
      omega
  | COMMAND s =>
      simp only [parserStep, Except.ok.injEq] at h
      rw [← h]
      omega

theorem countTL_cons (tok : Token) (rest : List Token) :
    countTimelineDirectives (tok :: rest) =
      (if isTimelineDirective tok = true then 1 else 0) + countTimelineDirectives rest := by
  unfold countTimelineDirectives
  rw [List.filter_cons]
  split <;> simp_all [Nat.add_comm]

/-- The parser loop never raises the duplicate-timeline error while the
timeline counter plus the remaining timeline directives stay at most one. -/
theorem parserRun_no_dup :
    ∀ (toks : List Token) (st : PState),
    st.configs_count_timeline + countTimelineDirectives toks ≤ 1 →
    toks.foldlM parserStep st ≠ .error dupTimelineErr := by
  intro toks
  induction toks with
  | nil =>
      intro st _ hcon
      simp [List.foldlM, pure, Except.pure] at hcon
  | cons tok rest ih =>
      intro st hle hcon
      rw [List.foldlM_cons] at hcon
      rw [countTL_cons] at hle
      cases hstep : parserStep st tok with
      | error e =>
          rw [hstep] at hcon
          simp only [bind, Except.bind, Except.error.injEq] at hcon
          rw [hcon] at hstep
          obtain ⟨htl, hcnt⟩ := parserStep_dup hstep
          rw [htl] at hle
          simp at hle
          omega
      | ok st' =>
          rw [hstep] at hcon
          simp only [bind, Except.bind] at hcon
          have hle2 : st'.configs_count_timeline + countTimelineDirectives rest ≤ 1 := by
            have := parserStep_cct hstep
            split at hle <;> split at this <;> simp_all <;> omega
          exact ih st' hle2 hcon

/-- C4 (amended): the duplicate-timeline error is raised exactly at the
second timeline directive of the single-pass parse --- tables earlier in the
stream are parsed before it is raised (see the counterexample) --- and an
input whose token stream contains at most one timeline directive is never
rejected with this error. -/
theorem C4_second_timeline_only :
    ∀ (lines : List String),
    countTimelineDirectives (pgsql_tokenizer lines) ≤ 1 →
    pgsqlParser lines ≠ .error dupTimelineErr := by
  intro lines hle hcon
  unfold pgsqlParser at hcon
  cases hrun : parserRun (pgsql_tokenizer lines) with
  | error e =>
      rw [hrun] at hcon
      simp only [Except.error.injEq] at hcon
      rw [hcon] at hrun
      unfold parserRun at hrun
      refine parserRun_no_dup _ PState.init ?_ hrun
      have h0 : PState.init.configs_count_timeline = 0 := rfl
      omega
  | ok st =>
      rw [hrun] at hcon
      dsimp only at hcon
      split at hcon
      · simp only [Except.error.injEq] at hcon
        exact absurd hcon (by decide)
      · split at hcon
        · simp only [Except.error.injEq] at hcon
          exact absurd hcon (by decide)
        · split at hcon
          · simp only [Except.error.injEq] at hcon
            exact absurd hcon (by decide)
          · exact absurd hcon (by simp)

theorem C4_witness :
    countTimelineDirectives (pgsql_tokenizer timelineTablePrefixInput) ≤ 1
  ∧ pgsqlParser timelineTablePrefixInput ≠ .error dupTimelineErr :=
  ⟨by decide, C4_second_timeline_only timelineTablePrefixInput (by decide)⟩

/-! ### Machinery for the render-totality analysis (claim C6) -/

theorem tuplelineCount_isOk_any (r : Relation) (tup : List String) (c c2 : Rat) :
    isOkE (tuplelineCount r tup c) = isOkE (tuplelineCount r tup c2) := by
  unfold tuplelineCount
  split
  · rfl
  · rfl

theorem tupleline_isOk {r : Relation} {tup : List String} (h : tupleSafe r tup = true)
    (tc : Nat) (c : Rat) : isOkE (format_tikz_tupleline tup r tc c) = true := by
  unfold tupleSafe at h
  simp only [Bool.and_eq_true] at h
  obtain ⟨h1, h2⟩ := h
  rw [tuplelineCount_isOk_any r tup 0 c] at h2
  unfold format_tikz_tupleline
  cases hext : tuplelineExtent r tup with
  | error e => rw [hext] at h1; simp [isOkE] at h1
  | ok ext =>
      cases hcnt : tuplelineCount r tup c with
      | error e => rw [hcnt] at h2; simp [isOkE] at h2
      | ok q => simp [isOkE]

theorem tupleLoop_isOk {r : Relation} :
    ∀ (tups : List (List String)), (∀ t ∈ tups, tupleSafe r t = true) →
    ∀ (tc : Nat) (posy : Rat), isOkE (tupleLoop r tups tc posy) = true := by
  intro tups
  induction tups with
  | nil => intro _ tc posy; simp [tupleLoop, isOkE]
  | cons t rest ih =>
      intro hall tc posy
      have ht := hall t (by simp)
      unfold tupleLoop
      cases h1 : format_tikz_tupleline t r tc posy with
      | error e =>
          have h3 := tupleline_isOk ht tc posy
          rw [h1] at h3
          simp [isOkE] at h3
      | ok o =>
          have hrest := ih (fun x hx => hall x (by simp [hx])) (tc + 1) (posy - 1)
          cases h2 : tupleLoop r rest (tc + 1) (posy - 1) with
          | error e => rw [h2] at hrest; simp [isOkE] at hrest
          | ok p => simp [isOkE]

theorem tuplelineCount_ypos_shape {r : Relation} (hy : r.ypos ≠ -1) {tup : List String}
    (h : isOkE (tuplelineCount r tup 0) = true) :
    ∃ c q, pyGetL tup r.ypos = .ok c ∧ pyFloat c = .ok q := by
  unfold tuplelineCount Relation.getTupleYPOS at h
  rw [if_pos hy] at h
  cases h1 : pyGetL tup r.ypos with
  | error e => rw [h1] at h; simp [isOkE] at h
  | ok c =>
      rw [h1] at h
      dsimp only at h
      cases h2 : pyFloat c with
      | error e => rw [h2] at h; simp [isOkE] at h
      | ok q => exact ⟨c, q, rfl, h2⟩

theorem countAboveFold_isOk {r : Relation} (hy : r.ypos ≠ -1) :
    ∀ (vals : List (List String)), (∀ v ∈ vals, tupleSafe r v = true) →
    ∀ (m : Rat), isOkE (vals.foldlM (countAboveStep r) m) = true := by
  intro vals
  induction vals with
  | nil => intro _ m; simp [List.foldlM, isOkE, pure, Except.pure]
  | cons v rest ih =>
      intro hall m
      have hv := hall v (by simp)
      unfold tupleSafe at hv
      simp only [Bool.and_eq_true] at hv
      obtain ⟨c, q, hc, hq⟩ := tuplelineCount_ypos_shape hy hv.2
      rw [List.foldlM_cons]
      have hstep : countAboveStep r m v = .ok (if m < q then q else m) := by
        simp only [countAboveStep, hc, hq]
      rw [hstep]
      exact ih (fun x hx => hall x (by simp [hx])) _

theorem countAboveRel_isOk {r : Relation} (h : ∀ v ∈ r.values, tupleSafe r v = true) :
    isOkE (countAboveRel r) = true := by
  unfold countAboveRel
  split
  · rename_i hy
    cases hf : r.values.foldlM (countAboveStep r) (1 : Rat) with
    | error e =>
        have h2 := countAboveFold_isOk hy r.values h 1
        rw [hf] at h2
        simp [isOkE] at h2
    | ok m => simp [isOkE]
  · simp [isOkE]

theorem diagramSafe_cons {l : ParsedLine} {rest : List ParsedLine}
    (h : diagramSafe (l :: rest) = true) : diagramSafe rest = true := by
  unfold diagramSafe at h ⊢
  simp only [List.all_cons, Bool.and_eq_true] at h
  exact h.2

theorem timeline_isOk {f t s : String} (h : timelineSafe f t s = true) (d : String) :
    isOkE (format_tikz_timeline f t s d) = true := by
  unfold timelineSafe at h
  simp only [Bool.and_eq_true, Bool.or_eq_true, decide_eq_true_eq] at h
  obtain ⟨⟨hf, ht⟩, hs⟩ := h
  obtain ⟨a, ha⟩ := isOkE_exists hf
  obtain ⟨b, hb⟩ := isOkE_exists ht
  unfold format_tikz_timeline
  split
  · rename_i hne
    rcases hs with hs | hs
    · exact absurd hs hne
    · obtain ⟨c, hc⟩ := isOkE_exists hs
      rw [ha, hb, hc]
      simp [isOkE]
  · rw [ha, hb]
    simp [isOkE]

theorem figureLines_isOk :
    ∀ (lines : List ParsedLine), diagramSafe lines = true →
    ∀ (posy : Rat), isOkE (figureLines lines posy) = true := by
  intro lines
  induction lines with
  | nil => intro _ posy; simp [figureLines, isOkE]
  | cons l rest ih =>
      intro hsafe posy
      have hrest := ih (diagramSafe_cons hsafe)
      unfold diagramSafe at hsafe
      simp only [List.all_cons, Bool.and_eq_true] at hsafe
      cases l with
      | config k v => exact hrest posy
      | timeline f t s d =>
          rw [figureLines]
          obtain ⟨e1, he1⟩ := isOkE_exists (timeline_isOk hsafe.1 d)
          rw [he1]
          obtain ⟨els, hels⟩ := isOkE_exists (hrest (-2))
          rw [hels]
          simp [isOkE]
      | relationRef rtype r =>
          rw [figureLines]
          split
          · have hall : ∀ v ∈ r.values, tupleSafe r v = true := by
              intro v hv
              exact List.all_eq_true.mp hsafe.1 v hv
            obtain ⟨pr, hpr⟩ := isOkE_exists (tupleLoop_isOk r.values hall 1 posy)
            rw [hpr]
            obtain ⟨els, hels⟩ := isOkE_exists (hrest pr.2)
            dsimp only
            rw [hels]
            simp [isOkE]
          · exact hrest posy

theorem countAbovePre_isOk :
    ∀ (lines : List ParsedLine), diagramSafe lines = true →
    isOkE (countAbovePre lines) = true := by
  intro lines
  induction lines with
  | nil => intro _; simp [countAbovePre, isOkE]
  | cons l rest ih =>
      intro hsafe
      have hrest := ih (diagramSafe_cons hsafe)
      unfold diagramSafe at hsafe
      simp only [List.all_cons, Bool.and_eq_true] at hsafe
      cases l with
      | config k v => exact hrest
      | timeline f t s d => simp [countAbovePre, isOkE]
      | relationRef rtype r =>
          rw [countAbovePre]
          have hall : ∀ v ∈ r.values, tupleSafe r v = true := by
            intro v hv
            exact List.all_eq_true.mp hsafe.1 v hv
          obtain ⟨a, ha⟩ := isOkE_exists (countAboveRel_isOk hall)
          rw [ha]
          obtain ⟨b, hb⟩ := isOkE_exists hrest
          rw [hb]
          simp [isOkE]

/-- C6 (amended): the table projection is total on relation lines, and the
diagram projection is total exactly under the documented soft-fallback
conditions --- every tuple extent resolves (explicit columns, range literal
or scalar), every ypos cell parses as a float, and the timeline bounds parse
as ints.  Without those conditions the diagram projection can raise (see the
counterexample), so the unconditional claim is corrected to this one. -/
theorem C6_render_totality :
    (∀ (rtype : String) (r : Relation) (label : String) (tt : Nat),
        rtype = "relation" ∨ rtype = "relation-table" →
        isOkE (format_latex_table (ParsedLine.relationRef rtype r) label tt) = true)
  ∧ (∀ (lines : List ParsedLine) (cfg : List (String × String)),
        diagramSafe lines = true → isOkE (format_tikz_figure lines cfg) = true) := by
  constructor
  · intro rtype r label tt h
    unfold format_latex_table
    dsimp only
    rw [if_pos h]
    simp [isOkE]
  · intro lines cfg hsafe
    unfold format_tikz_figure
    obtain ⟨a, ha⟩ := isOkE_exists (countAbovePre_isOk lines hsafe)
    rw [ha]
    dsimp only
    obtain ⟨els, hels⟩ := isOkE_exists (figureLines_isOk lines hsafe a)
    rw [hels]
    simp [isOkE]

theorem C6_witness :
    diagramSafe stackingModel = true
  ∧ isOkE (format_tikz_figure stackingModel []) = true
  ∧ isOkE (format_latex_table (ParsedLine.relationRef "relation-table" c8rel1) "lbl" 2) = true :=
  ⟨by decide,
   C6_render_totality.2 stackingModel [] (by decide),
   C6_render_totality.1 "relation-table" c8rel1 "lbl" 2 (Or.inr rfl)⟩

/-! ### Machinery for the vertical placement analysis (claims C7 and C8) -/

theorem tupleline_count_ypos {r : Relation} (hy : r.ypos = 2) {x y v : String} {tc : Nat}
    {c : Rat} {o : TupleLineOut} {q : Rat} (hq : pyFloat v = .ok q)
    (h : format_tikz_tupleline [x, y, v] r tc c = .ok o) : o.count = q := by
  unfold format_tikz_tupleline at h
  cases hext : tuplelineExtent r [x, y, v] with
  | error e => rw [hext] at h; exact absurd h (by simp)
  | ok ext =>
      rw [hext] at h
      have hcnt : tuplelineCount r [x, y, v] c = .ok q := by
        unfold tuplelineCount
        rw [hy]
        simp [Relation.getTupleYPOS, pyGetL, hq, hy]
      rw [hcnt] at h
      simp only [Except.ok.injEq] at h
      rw [← h]

/-- C7 (amended): a relation whose ypos column is resolved places each tuple
at the y value carried by that tuple, irrespective of the input order of the
two rows, but the running stacking counter is nevertheless decremented once
per tuple, so after the two ypos tuples the counter handed to the following
relations has advanced by two (the original claim said it does not advance;
the counterexample shows the displaced neighbour). -/
theorem C7_ypos_placement :
    ∀ (r : Relation) (a1 b1 a2 b2 : String) (tc : Nat) (posy : Rat)
      (es1 es2 : List FigElem) (p1 p2 : Rat),
    r.ypos = 2 →
    tupleLoop r [[a1, b1, "1.5"], [a2, b2, "0.5"]] tc posy = .ok (es1, p1) →
    tupleLoop r [[a2, b2, "0.5"], [a1, b1, "1.5"]] tc posy = .ok (es2, p2) →
    es1.filterMap countOf = [3/2, 1/2] ∧ p1 = posy - 2
    ∧ es2.filterMap countOf = [1/2, 3/2] ∧ p2 = posy - 2 := by
  intro r a1 b1 a2 b2 tc posy es1 es2 p1 p2 hy h1 h2
  have hf1 : pyFloat "1.5" = .ok (3/2) := by decide
  have hf2 : pyFloat "0.5" = .ok (1/2) := by decide
  unfold tupleLoop at h1 h2
  cases ht1 : format_tikz_tupleline [a1, b1, "1.5"] r tc posy with
  | error e => rw [ht1] at h1; exact absurd h1 (by simp)
  | ok o1 =>
  rw [ht1] at h1
  cases ht2 : format_tikz_tupleline [a2, b2, "0.5"] r (tc + 1) (posy - 1) with
  | error e => unfold tupleLoop at h1; rw [ht2] at h1; exact absurd h1 (by simp)
  | ok o2 =>
  unfold tupleLoop at h1
  rw [ht2] at h1
  cases ht3 : format_tikz_tupleline [a2, b2, "0.5"] r tc posy with
  | error e => rw [ht3] at h2; exact absurd h2 (by simp)
  | ok o3 =>
  rw [ht3] at h2
  cases ht4 : format_tikz_tupleline [a1, b1, "1.5"] r (tc + 1) (posy - 1) with
  | error e => unfold tupleLoop at h2; rw [ht4] at h2; exact absurd h2 (by simp)
  | ok o4 =>
  unfold tupleLoop at h2
  rw [ht4] at h2
  simp only [tupleLoop, Except.ok.injEq, Prod.mk.injEq] at h1 h2
  obtain ⟨hes1, hp1⟩ := h1
  obtain ⟨hes2, hp2⟩ := h2
  have hc1 := tupleline_count_ypos hy hf1 ht1
  have hc2 := tupleline_count_ypos hy hf2 ht2
  have hc3 := tupleline_count_ypos hy hf2 ht3
  have hc4 := tupleline_count_ypos hy hf1 ht4
  refine ⟨?_, ?_, ?_, ?_⟩
  · rw [← hes1]; simp [countOf, hc1, hc2]
  · rw [← hp1]; ring
  · rw [← hes2]; simp [countOf, hc3, hc4]
  · rw [← hp2]; ring

theorem C7_witness :
    (tupleLoop yposRelation [["1", "7", "1.5"], ["2", "5", "0.5"]] 1 (5/2)).map
      (fun p => (p.1.filterMap countOf, p.2)) = .ok ([3/2, 1/2], 1/2)
  ∧ (tupleLoop yposRelation [["2", "5", "0.5"], ["1", "7", "1.5"]] 1 (5/2)).map
      (fun p => (p.1.filterMap countOf, p.2)) = .ok ([1/2, 3/2], 1/2) := by
  obtain ⟨p1, hp1⟩ := isOkE_exists
    (show isOkE (tupleLoop yposRelation [["1", "7", "1.5"], ["2", "5", "0.5"]] 1 (5/2)) = true
     from by decide)
  obtain ⟨p2, hp2⟩ := isOkE_exists
    (show isOkE (tupleLoop yposRelation [["2", "5", "0.5"], ["1", "7", "1.5"]] 1 (5/2)) = true
     from by decide)
  obtain ⟨hc1, hq1, hc2, hq2⟩ := C7_ypos_placement yposRelation "1" "7" "2" "5" 1 (5/2)
    p1.1 p2.1 p1.2 p2.2 rfl (by rw [hp1]) (by rw [hp2])
  rw [hp1, hp2]
  simp only [Except.map]
  constructor
  · rw [hc1, hq1]
    norm_num
  · rw [hc2, hq2]
    norm_num

theorem tupleline_count_default {r : Relation} (hy : r.ypos = -1) {tup : List String}
    {tc : Nat} {c : Rat} {o : TupleLineOut}
    (h : format_tikz_tupleline tup r tc c = .ok o) : o.count = c := by
  unfold format_tikz_tupleline at h
  cases hext : tuplelineExtent r tup with
  | error e => rw [hext] at h; exact absurd h (by simp)
  | ok ext =>
      rw [hext] at h
      have hcnt : tuplelineCount r tup c = .ok c := by
        unfold tuplelineCount
        simp [hy]
      rw [hcnt] at h
      simp only [Except.ok.injEq] at h
      rw [← h]

/-- The sequence of stacking coordinates: n consecutive values decreasing by
one from posy. -/
def rangeCounts (posy : Rat) : Nat → List Rat
  | 0 => []
  | n + 1 => posy :: rangeCounts (posy - 1) n

theorem tupleLoop_counts {r : Relation} (hy : r.ypos = -1) :
    ∀ (tups : List (List String)) (tc : Nat) (posy : Rat) (es : List FigElem) (p : Rat),
    tupleLoop r tups tc posy = .ok (es, p) →
    es.filterMap countOf = rangeCounts posy tups.length ∧ p = posy - tups.length := by
  intro tups
  induction tups with
  | nil =>
      intro tc posy es p h
      simp only [tupleLoop, Except.ok.injEq, Prod.mk.injEq] at h
      obtain ⟨hes, hp⟩ := h
      simp [← hes, ← hp, rangeCounts]
  | cons t rest ih =>
      intro tc posy es p h
      unfold tupleLoop at h
      cases ht : format_tikz_tupleline t r tc posy with
      | error e => rw [ht] at h; exact absurd h (by simp)
      | ok o =>
          rw [ht] at h
          cases hrest : tupleLoop r rest (tc + 1) (posy - 1) with
          | error e => rw [hrest] at h; exact absurd h (by simp)
          | ok pr =>
              rw [hrest] at h
              simp only [Except.ok.injEq, Prod.mk.injEq] at h
              obtain ⟨hes, hp⟩ := h
              obtain ⟨hcounts, hpp⟩ := ih (tc + 1) (posy - 1) pr.1 pr.2 (by rw [hrest])
              constructor
              · rw [← hes]
                simp [countOf, tupleline_count_default hy ht, hcounts, rangeCounts]
              · rw [← hp, hpp]
                simp only [List.length_cons]
                push_cast
                ring

theorem descEls_counts (c : Prop) [Decidable c] (pos : Rat) (s : String) :
    (if c then [FigElem.desc pos s] else []).filterMap countOf = [] := by
  split <;> simp [countOf]

theorem figureLines_rel_cons {r : Relation} {rest : List ParsedLine} {posy : Rat}
    {els : List FigElem}
    (h : figureLines (ParsedLine.relationRef "relation" r :: rest) posy = .ok els) :
    ∃ pr els2, tupleLoop r r.values 1 posy = .ok pr ∧
      figureLines rest pr.2 = .ok els2 ∧
      els = (if stripL r.desc.data ≠ [] then
               [FigElem.desc (posy - ((r.getLength : Rat) - 1) / 2) r.desc]
             else []) ++ pr.1 ++ els2 := by
  rw [figureLines] at h
  rw [if_pos (Or.inl rfl)] at h
  cases h1 : tupleLoop r r.values 1 posy with
  | error e => rw [h1] at h; exact absurd h (by simp)
  | ok pr =>
      rw [h1] at h
      dsimp only at h
      cases h2 : figureLines rest pr.2 with
      | error e => rw [h2] at h; exact absurd h (by simp)
      | ok els2 =>
          rw [h2] at h
          simp only [Except.ok.injEq] at h
          exact ⟨pr, els2, rfl, h2, h.symm⟩

theorem figureLines_timeline_cons {f t s d : String} {rest : List ParsedLine} {posy : Rat}
    {els : List FigElem}
    (h : figureLines (ParsedLine.timeline f t s d :: rest) posy = .ok els) :
    ∃ e1 els2, format_tikz_timeline f t s d = .ok e1 ∧ figureLines rest (-2) = .ok els2 ∧
      els = e1 :: els2 := by
  rw [figureLines] at h
  cases h1 : format_tikz_timeline f t s d with
  | error e => rw [h1] at h; exact absurd h (by simp)
  | ok e1 =>
      rw [h1] at h
      cases h2 : figureLines rest (-2) with
      | error e => rw [h2] at h; exact absurd h (by simp)
      | ok els2 =>
          rw [h2] at h
          simp only [Except.ok.injEq] at h
          exact ⟨e1, els2, rfl, rfl, h.symm⟩

theorem timeline_countOf {f t s d : String} {e1 : FigElem}
    (h : format_tikz_timeline f t s d = .ok e1) : countOf e1 = none := by
  unfold format_tikz_timeline at h
  split at h
  · cases hA : pyInt f <;> rw [hA] at h
    · exact absurd h (by simp)
    · cases hB : pyInt t <;> rw [hB] at h
      · exact absurd h (by simp)
      · cases hC : pyInt s <;> rw [hC] at h
        · exact absurd h (by simp)
        · simp only [Except.ok.injEq] at h; rw [← h]; rfl
  · cases hA : pyInt f <;> rw [hA] at h
    · exact absurd h (by simp)
    · cases hB : pyInt t <;> rw [hB] at h
      · exact absurd h (by simp)
      · simp only [Except.ok.injEq] at h; rw [← h]; rfl

/-- C8: for three relations with 2, 1 and 3 tuples listed before the
timeline directive and without a ypos column, the computed initial offset
(count_above) is 3, the first relation receives the coordinates 3 and 2
(the two highest integers at or below the offset, decreasing by one per
tuple), and the six tuple coordinates across the three relations form the
consecutive decreasing sequence 3, 2, 1, 0, -1, -2 with no gaps at relation
boundaries. -/
theorem C8_stacking :
    ∀ (r1 r2 r3 : Relation) (f t s d : String) (cfg : List (String × String)) (out : FigureOut),
    r1.ypos = -1 → r2.ypos = -1 → r3.ypos = -1 →
    r1.values.length = 2 → r2.values.length = 1 → r3.values.length = 3 →
    format_tikz_figure
      [ParsedLine.relationRef "relation" r1, ParsedLine.relationRef "relation" r2,
       ParsedLine.relationRef "relation" r3, ParsedLine.timeline f t s d] cfg = .ok out →
    countAbovePre
      [ParsedLine.relationRef "relation" r1, ParsedLine.relationRef "relation" r2,
       ParsedLine.relationRef "relation" r3, ParsedLine.timeline f t s d] = .ok 3
    ∧ figureCounts out = [3, 2, 1, 0, -1, -2] := by
  intro r1 r2 r3 f t s d cfg out hy1 hy2 hy3 hl1 hl2 hl3 hfig
  have hca : countAbovePre
      [ParsedLine.relationRef "relation" r1, ParsedLine.relationRef "relation" r2,
       ParsedLine.relationRef "relation" r3, ParsedLine.timeline f t s d] = .ok 3 := by
    simp [countAbovePre, countAboveRel, hy1, hy2, hy3, Relation.getLength, hl1, hl2, hl3]
    norm_num
  refine ⟨hca, ?_⟩
  unfold format_tikz_figure at hfig
  rw [hca] at hfig
  dsimp only at hfig
  cases hfl : figureLines
      [ParsedLine.relationRef "relation" r1, ParsedLine.relationRef "relation" r2,
       ParsedLine.relationRef "relation" r3, ParsedLine.timeline f t s d] 3 with
  | error e => rw [hfl] at hfig; exact absurd hfig (by simp)
  | ok els =>
  rw [hfl] at hfig
  simp only [Except.ok.injEq] at hfig
  obtain ⟨pr1, els1, h1, hfl1, he1⟩ := figureLines_rel_cons hfl
  obtain ⟨hc1, hp1⟩ := tupleLoop_counts hy1 r1.values 1 3 pr1.1 pr1.2 (by rw [h1])
  rw [hl1] at hc1 hp1
  obtain ⟨pr2, els2, h2, hfl2, he2⟩ := figureLines_rel_cons hfl1
  obtain ⟨hc2, hp2⟩ := tupleLoop_counts hy2 r2.values 1 pr1.2 pr2.1 pr2.2 (by rw [h2])
  rw [hl2, hp1] at hc2 hp2
  obtain ⟨pr3, els3, h3, hfl3, he3⟩ := figureLines_rel_cons hfl2
  obtain ⟨hc3, hp3⟩ := tupleLoop_counts hy3 r3.values 1 pr2.2 pr3.1 pr3.2 (by rw [h3])
  rw [hl3, hp2] at hc3 hp3
  obtain ⟨e1, els4, htl, hfl4, he4⟩ := figureLines_timeline_cons hfl3
  have hnil : els4 = [] := by
    rw [figureLines] at hfl4
    simp only [Except.ok.injEq] at hfl4
    exact hfl4.symm
  have hout : out.content = els := by rw [← hfig]
  unfold figureCounts
  rw [hout, he1, he2, he3, he4, hnil]
  simp only [List.filterMap_append, List.filterMap_cons, List.filterMap_nil,
             timeline_countOf htl, descEls_counts, hc1, hc2, hc3]
  norm_num [rangeCounts]

theorem C8_witness :
    (format_tikz_figure stackingModel []).map figureCounts = .ok [3, 2, 1, 0, -1, -2]
  ∧ countAbovePre stackingModel = .ok 3 := by
  obtain ⟨out, hout⟩ := isOkE_exists
    (show isOkE (format_tikz_figure stackingModel []) = true from by decide)
  obtain ⟨hca, hcounts⟩ := C8_stacking c8rel1 c8rel2 c8rel3 "0" "9" "" "time" [] out
    rfl rfl rfl rfl rfl rfl hout
  constructor
  · rw [hout]
    simp [Except.map, hcounts]
  · exact hca

end PW

